import Mathlib

/-!
Shallow embedding of `src/examples/python_client.py` (class
`AluminatiEnergyTracker`): the payload construction, the retrying
submission loop, and the two plain accessor operations, together with
theorems settling the behavioural claims about them.

Modelling conventions:
* JSON values are the inductive `Json`; numbers are rationals (the client
  never computes with them, it only embeds and echoes them).
* One outbound HTTP attempt is summarised by an `AttemptOutcome`: either a
  transport-level failure of `session.post`/`get`/`patch`, or a response
  carrying its integer status code and `some body` when `response.json()`
  parses, `none` when it does not.
* `requests.Response.raise_for_status` raises `HTTPError` exactly when
  `400 <= status_code < 600` (`raisesForStatus`); a JSON-parse failure
  raises `requests.exceptions.JSONDecodeError`, a subclass of
  `RequestException`.  Both, and transport errors, are the exception class
  caught by the `except` clause at line 100 of the source.
* The `print` statements inside the `try` block subscript the parsed body
  (`result["id"]`, `result["estimates"]["kwh"]`, ...) and format values
  with `:.2f`; `consumeResult` performs those accesses in source order and
  reports the Python error (`KeyError` / `TypeError` / `ValueError`) that
  the first failing access would raise.  Those errors are not caught by
  the `except requests.exceptions.RequestException` clause.
-/

/-- JSON values as produced by `response.json()`; object fields are listed
in insertion order and, being decoded Python dicts, have distinct keys. -/
inductive Json where
  | null : Json
  | bool (b : Bool) : Json
  | num (q : Rat) : Json
  | str (s : String) : Json
  | arr (elems : List Json) : Json
  | obj (fields : List (String × Json)) : Json

/-- Errors raised by the Python code outside the retried request-exception
class: `KeyError` from a missing dict key, `TypeError` from subscripting or
formatting a value of the wrong type, `ValueError` from formatting a string
with `:.2f`. -/
inductive PyErr where
  | keyError (k : String) : PyErr
  | typeError : PyErr
  | valueError : PyErr
deriving DecidableEq

/-- The retried request-exception class: a transport-level failure, an
`HTTPError` from `raise_for_status`, or a `JSONDecodeError` from
`response.json()`. -/
inductive ReqErr where
  | transport : ReqErr
  | httpStatus (s : Nat) : ReqErr
  | parseError : ReqErr
deriving DecidableEq

/-- What one outbound HTTP call comes back with: a transport failure, or a
response with status code `status` and `some body` when the body parses as
JSON (`none` when `response.json()` would fail). -/
inductive AttemptOutcome where
  | transportError : AttemptOutcome
  | response (status : Nat) (body : Option Json) : AttemptOutcome

/-- `requests.Response.raise_for_status` raises exactly for client-error
and server-error status codes: `400 <= status_code < 600`. -/
def raisesForStatus (s : Nat) : Bool :=
  decide (400 ≤ s) && decide (s < 600)

/-- The workload description passed to `submit_workload` (source lines
24-33); numeric Python values are modelled as rationals, `num_gpus` as an
integer. -/
structure WorkloadRequest where
  model_size_gb : Rat
  num_gpus : Int
  gpu_type : String
  duration_hours : Rat
  utilization_pct : Rat
  use_smart_agent : Bool
  notes : Option String
deriving DecidableEq

/-- The JSON body built at source lines 54-64: the six request fields, then
`notes` appended only when it is truthy (present and non-empty). -/
def buildPayload (r : WorkloadRequest) : List (String × Json) :=
  [("model_size_gb", Json.num r.model_size_gb),
   ("num_gpus", Json.num r.num_gpus),
   ("gpu_type", Json.str r.gpu_type),
   ("duration_hours", Json.num r.duration_hours),
   ("utilization_pct", Json.num r.utilization_pct),
   ("use_smart_agent", Json.bool r.use_smart_agent)] ++
  (match r.notes with
   | some s => if s = "" then [] else [("notes", Json.str s)]
   | none => [])

/-- One outbound HTTP call as issued by the client: method, full URL, the
`timeout=` argument when passed, and the JSON body when one is sent. -/
structure HttpCall where
  method : String
  url : String
  timeout : Option Nat
  body : Option Json

/-- Python subscripting `j[k]` on a decoded JSON value: a `KeyError` when
the dict lacks the key, a `TypeError` when `j` is not a dict at all. -/
def Json.lookupKey : Json → String → Except PyErr Json
  | Json.obj fields, k =>
    match fields.lookup k with
    | some v => Except.ok v
    | none => Except.error (PyErr.keyError k)
  | _, _ => Except.error PyErr.typeError

/-- Whether subscripting with `k` would succeed. -/
def Json.hasKey (j : Json) (k : String) : Bool :=
  match j.lookupKey k with
  | Except.ok _ => true
  | Except.error _ => false

/-- Python `dict.get(k)` with default `None`; only ever reached on values
already known to be dicts. -/
def Json.getOrNull : Json → String → Json
  | Json.obj fields, k => (fields.lookup k).getD Json.null
  | _, _ => Json.null

/-- Python truthiness of a decoded JSON value, as tested by
`if result.get("agent_insights"):`. -/
def Json.truthy : Json → Bool
  | Json.null => false
  | Json.bool b => b
  | Json.num q => decide (q ≠ 0)
  | Json.str s => decide (s ≠ "")
  | Json.arr elems => !elems.isEmpty
  | Json.obj fields => !fields.isEmpty

/-- Formatting a decoded value with `:.2f` in an f-string: numbers (and
bools, which are ints in Python) format; strings raise `ValueError`,
everything else `TypeError`. -/
def fmtFixed2 : Json → Except PyErr Unit
  | Json.num _ => Except.ok ()
  | Json.bool _ => Except.ok ()
  | Json.str _ => Except.error PyErr.valueError
  | _ => Except.error PyErr.typeError

/-- Python slicing `xs[:3]` followed by `enumerate`: succeeds on sequences
(lists and strings), raises `TypeError` otherwise. -/
def sliceable : Json → Except PyErr Unit
  | Json.arr _ => Except.ok ()
  | Json.str _ => Except.ok ()
  | _ => Except.error PyErr.typeError

/-- The accesses the success path performs on the parsed body before
`return result` (source lines 80-96), in source order: `result["id"]`,
`result["estimates"]["kwh"]` formatted `:.2f`, then `carbon_kg`, then
`cost_usd` (each formatted `:.2f`), then the truthiness test of
`result.get("agent_insights")` and, when truthy,
`result["agent_insights"]["optimizations"][:3]`.  Returns the first Python
error raised, if any. -/
def consumeResult (result : Json) : Except PyErr Unit :=
  match result.lookupKey "id" with
  | Except.error e => Except.error e
  | Except.ok _ =>
    match result.lookupKey "estimates" with
    | Except.error e => Except.error e
    | Except.ok est =>
      match est.lookupKey "kwh" with
      | Except.error e => Except.error e
      | Except.ok kwh =>
        match fmtFixed2 kwh with
        | Except.error e => Except.error e
        | Except.ok _ =>
          match est.lookupKey "carbon_kg" with
          | Except.error e => Except.error e
          | Except.ok carbon =>
            match fmtFixed2 carbon with
            | Except.error e => Except.error e
            | Except.ok _ =>
              match est.lookupKey "cost_usd" with
              | Except.error e => Except.error e
              | Except.ok cost =>
                match fmtFixed2 cost with
                | Except.error e => Except.error e
                | Except.ok _ =>
                  let insights := result.getOrNull "agent_insights"
                  if insights.truthy then
                    match insights.lookupKey "optimizations" with
                    | Except.error e => Except.error e
                    | Except.ok opts => sliceable opts
                  else Except.ok ()

/-- What `submit_workload` does to the caller in the end: return the parsed
body (after the success-path prints), re-raise the last retried request
exception (line 109), propagate an uncaught Python error from the prints,
or fall off the loop and return the empty dict `{}` (line 111). -/
inductive SubmitOutcome where
  | success (body : Json) : SubmitOutcome
  | raisedRequestError (e : ReqErr) : SubmitOutcome
  | raisedPyError (e : PyErr) : SubmitOutcome
  | emptyDict : SubmitOutcome

/-- Observable trace of one `submit_workload` invocation: the outbound
calls in order, the `time.sleep` durations in order, and the outcome. -/
structure SubmitTrace where
  calls : List HttpCall
  sleeps : List Nat
  outcome : SubmitOutcome

/-- The call each attempt issues (source lines 69-73): POST to
`{base}/api/workloads` with `timeout=30` and the built payload. -/
def mkSubmitCall (base : String) (r : WorkloadRequest) : HttpCall :=
  { method := "POST"
    url := base ++ "/api/workloads"
    timeout := some 30
    body := some (Json.obj (buildPayload r)) }

/-- How one attempt's outcome is classified by the `try` block: success
with the parsed body, an uncaught Python error from the prints, or a
retried request exception. -/
inductive AttemptResult where
  | ok (body : Json) : AttemptResult
  | consumeErr (e : PyErr) : AttemptResult
  | reqErr (e : ReqErr) : AttemptResult

/-- The body of the `try` block for one attempt: `raise_for_status`, then
`response.json()`, then the prints, then `return result`. -/
def handleResponse : AttemptOutcome → AttemptResult
  | AttemptOutcome.transportError => AttemptResult.reqErr ReqErr.transport
  | AttemptOutcome.response s none =>
    if raisesForStatus s then AttemptResult.reqErr (ReqErr.httpStatus s)
    else AttemptResult.reqErr ReqErr.parseError
  | AttemptOutcome.response s (some body) =>
    if raisesForStatus s then AttemptResult.reqErr (ReqErr.httpStatus s)
    else
      match consumeResult body with
      | Except.ok _ => AttemptResult.ok body
      | Except.error e => AttemptResult.consumeErr e

/-- Whether an attempt's outcome lands in the retried
`requests.exceptions.RequestException` class. -/
def isRetriedFailure : AttemptOutcome → Bool
  | AttemptOutcome.transportError => true
  | AttemptOutcome.response _ none => true
  | AttemptOutcome.response s (some _) => raisesForStatus s

/-- The request error an attempt raises, when it raises one. -/
def errOf : AttemptOutcome → ReqErr
  | AttemptOutcome.transportError => ReqErr.transport
  | AttemptOutcome.response s none =>
    if raisesForStatus s then ReqErr.httpStatus s else ReqErr.parseError
  | AttemptOutcome.response s (some _) => ReqErr.httpStatus s

/-- The retry loop of `submit_workload` (source lines 67-111): `att` is the
0-indexed number of the next attempt, the second argument the number of
loop iterations left (`max_retries.toNat - att`), and `env i` the outcome
of the i-th outbound call.  On a retried failure the loop sleeps
`2 ** attempt` seconds and continues when `attempt < max_retries - 1`,
otherwise re-raises; after the loop it returns `{}`. -/
def submitLoop (base : String) (r : WorkloadRequest) (env : Nat → AttemptOutcome)
    (max_retries : Int) : Nat → Nat → SubmitTrace
  | _, 0 => { calls := [], sleeps := [], outcome := SubmitOutcome.emptyDict }
  | att, rem + 1 =>
    match handleResponse (env att) with
    | AttemptResult.ok body =>
      { calls := [mkSubmitCall base r], sleeps := []
        outcome := SubmitOutcome.success body }
    | AttemptResult.consumeErr e =>
      { calls := [mkSubmitCall base r], sleeps := []
        outcome := SubmitOutcome.raisedPyError e }
    | AttemptResult.reqErr e =>
      if (att : Int) < max_retries - 1 then
        let rest := submitLoop base r env max_retries (att + 1) rem
        { calls := mkSubmitCall base r :: rest.calls
          sleeps := 2 ^ att :: rest.sleeps
          outcome := rest.outcome }
      else
        { calls := [mkSubmitCall base r], sleeps := []
          outcome := SubmitOutcome.raisedRequestError e }

/-- `submit_workload` itself: iterate the loop over
`range(max_retries)` starting at attempt 0. -/
def submit_workload (base : String) (r : WorkloadRequest) (max_retries : Int)
    (env : Nat → AttemptOutcome) : SubmitTrace :=
  submitLoop base r env max_retries 0 max_retries.toNat

/-- Outcome of the single-call accessors: the parsed body, or the raised
request error. -/
inductive FetchOutcome where
  | success (body : Json) : FetchOutcome
  | raised (e : ReqErr) : FetchOutcome

/-- The straight-line `response` handling shared by `get_workload` and
`update_status`: `raise_for_status()` then `response.json()`, no retry. -/
def httpFetch : AttemptOutcome → FetchOutcome
  | AttemptOutcome.transportError => FetchOutcome.raised ReqErr.transport
  | AttemptOutcome.response s none =>
    if raisesForStatus s then FetchOutcome.raised (ReqErr.httpStatus s)
    else FetchOutcome.raised ReqErr.parseError
  | AttemptOutcome.response s (some body) =>
    if raisesForStatus s then FetchOutcome.raised (ReqErr.httpStatus s)
    else FetchOutcome.success body

/-- `get_workload` (source lines 113-127): one GET to
`{base}/api/workloads/{workload_id}`, no timeout argument, no body, no
retry. -/
def get_workload (base workload_id : String) (env : AttemptOutcome) :
    HttpCall × FetchOutcome :=
  ({ method := "GET"
     url := base ++ "/api/workloads/" ++ workload_id
     timeout := none
     body := none },
   httpFetch env)

/-- `update_status` (source lines 129-145): one PATCH to
`{base}/api/workloads/{workload_id}` with body `{"status": status}`, no
timeout argument, no retry. -/
def update_status (base workload_id status : String) (env : AttemptOutcome) :
    HttpCall × FetchOutcome :=
  ({ method := "PATCH"
     url := base ++ "/api/workloads/" ++ workload_id
     timeout := none
     body := some (Json.obj [("status", Json.str status)]) },
   httpFetch env)

/-- Python `s.rstrip("/")`: remove every trailing slash. -/
def rstripSlash (s : String) : String :=
  String.mk ((s.data.reverse.dropWhile (fun c => c = '/')).reverse)

/-- The client object: its only state relevant here is the stored base
URL. -/
structure Tracker where
  api_base_url : String
deriving DecidableEq

/-- `AluminatiEnergyTracker.__init__` (source lines 20-22): strip trailing
slashes from the configured base URL. -/
def mkTracker (api_base_url : String) : Tracker :=
  { api_base_url := rstripSlash api_base_url }

/-- Default value of the `api_base_url` parameter (source line 20). -/
def defaultApiBaseUrl : String := "https://aluminatiai.com"

/-- The request of the spec's example scenario:
`{model_size_gb:70, num_gpus:8, gpu_type:"H100", duration_hours:72,
utilization_pct:85, use_smart_agent:true}`. -/
def specExampleRequest : WorkloadRequest :=
  { model_size_gb := 70
    num_gpus := 8
    gpu_type := "H100"
    duration_hours := 72
    utilization_pct := 85
    use_smart_agent := true
    notes := none }

/-- The stub response body of the spec's example scenario:
`{id:"abc123", status:"submitted",
estimates:{kwh:1200.5, carbon_kg:600.2, cost_usd:150.0}}`. -/
def specStubBody : Json :=
  Json.obj
    [("id", Json.str "abc123"),
     ("status", Json.str "submitted"),
     ("estimates",
      Json.obj
        [("kwh", Json.num (1200.5 : Rat)),
         ("carbon_kg", Json.num (600.2 : Rat)),
         ("cost_usd", Json.num (150.0 : Rat))])]

/-- A JSON body lacking every key the success path reads. -/
def emptyObjBody : Json := Json.obj []

/-- A 2xx body that lacks `carbon_kg` and `cost_usd` but maps `kwh` to a
string, so the `:.2f` formatting of `kwh` raises `ValueError` before any
missing-key lookup is reached. -/
def badKwhBody : Json :=
  Json.obj
    [("id", Json.str "w1"),
     ("estimates", Json.obj [("kwh", Json.str "oops")])]

/-- A 2xx body whose `estimates` object lacks only `cost_usd`. -/
def missingCostBody : Json :=
  Json.obj
    [("id", Json.str "w2"),
     ("estimates",
      Json.obj [("kwh", Json.num 10), ("carbon_kg", Json.num 5)])]

theorem handleResponse_retried (o : AttemptOutcome)
    (h : isRetriedFailure o = true) :
    handleResponse o = AttemptResult.reqErr (errOf o) := by
  cases o with
  | transportError => rfl
  | response s b =>
    cases b with
    | none =>
      by_cases hs : raisesForStatus s <;> simp [handleResponse, errOf, hs]
    | some body =>
      have hs : raisesForStatus s = true := h
      simp [handleResponse, errOf, hs]

theorem consume_ok_of_handleResponse (o : AttemptOutcome) (body : Json)
    (h : handleResponse o = AttemptResult.ok body) :
    consumeResult body = Except.ok () := by
  cases o with
  | transportError => simp [handleResponse] at h
  | response s b =>
    cases b with
    | none => by_cases hs : raisesForStatus s <;> simp [handleResponse, hs] at h
    | some b2 =>
      by_cases hs : raisesForStatus s
      · simp [handleResponse, hs] at h
      · simp only [handleResponse, hs, Bool.false_eq_true, if_false] at h
        cases hc : consumeResult b2 with
        | ok u =>
          rw [hc] at h
          cases h
          cases u
          exact hc
        | error e => rw [hc] at h; cases h

theorem pow_sleeps_cons (att k : Nat) :
    (2 : Nat) ^ att :: (List.range k).map (fun j => 2 ^ (att + 1 + j)) =
    (List.range (k + 1)).map (fun j => 2 ^ (att + j)) := by
  have hf : (fun j => (2 : Nat) ^ (att + 1 + j)) =
      ((fun j => (2 : Nat) ^ (att + j)) ∘ Nat.succ) := by
    funext j
    simp only [Function.comp_apply]
    congr 1
    omega
  rw [hf, List.range_succ_eq_map, List.map_cons, List.map_map]
  simp

theorem submitLoop_ok_step (base : String) (r : WorkloadRequest)
    (env : Nat → AttemptOutcome) (m : Int) (att n : Nat) (body : Json)
    (h : handleResponse (env att) = AttemptResult.ok body) :
    submitLoop base r env m att (n + 1) =
      { calls := [mkSubmitCall base r], sleeps := []
        outcome := SubmitOutcome.success body } := by
  simp only [submitLoop, h]

theorem submitLoop_consumeErr_step (base : String) (r : WorkloadRequest)
    (env : Nat → AttemptOutcome) (m : Int) (att n : Nat) (e : PyErr)
    (h : handleResponse (env att) = AttemptResult.consumeErr e) :
    submitLoop base r env m att (n + 1) =
      { calls := [mkSubmitCall base r], sleeps := []
        outcome := SubmitOutcome.raisedPyError e } := by
  simp only [submitLoop, h]

theorem submitLoop_reqErr_step (base : String) (r : WorkloadRequest)
    (env : Nat → AttemptOutcome) (m : Int) (att n : Nat) (e : ReqErr)
    (h : handleResponse (env att) = AttemptResult.reqErr e) :
    submitLoop base r env m att (n + 1) =
      if (att : Int) < m - 1 then
        { calls := mkSubmitCall base r :: (submitLoop base r env m (att + 1) n).calls
          sleeps := 2 ^ att :: (submitLoop base r env m (att + 1) n).sleeps
          outcome := (submitLoop base r env m (att + 1) n).outcome }
      else
        { calls := [mkSubmitCall base r], sleeps := []
          outcome := SubmitOutcome.raisedRequestError e } := by
  simp only [submitLoop, h]

theorem sum_pow_range (n : Nat) :
    ((List.range n).map (fun j => (2 : Nat) ^ j)).sum = 2 ^ n - 1 := by
  induction n with
  | zero => rfl
  | succ k ih =>
    rw [List.range_succ, List.map_append, List.sum_append]
    simp only [List.map_cons, List.map_nil, List.sum_cons, List.sum_nil, ih]
    have h1 : 0 < (2 : Nat) ^ k := Nat.pow_pos (by norm_num)
    have h2 : (2 : Nat) ^ (k + 1) = 2 ^ k + 2 ^ k := by rw [pow_succ]; omega
    omega

theorem submitLoop_allFail (base : String) (r : WorkloadRequest)
    (env : Nat → AttemptOutcome) (m : Int)
    (hfail : ∀ i, isRetriedFailure (env i) = true) :
    ∀ rem att, att + rem = m.toNat → 1 ≤ rem →
    submitLoop base r env m att rem =
      { calls := List.replicate rem (mkSubmitCall base r)
        sleeps := (List.range (rem - 1)).map (fun j => 2 ^ (att + j))
        outcome := SubmitOutcome.raisedRequestError (errOf (env (att + rem - 1))) } := by
  intro rem
  induction rem with
  | zero => intro att h1 h2; omega
  | succ n ih =>
    intro att hsum _
    have hbr := handleResponse_retried (env att) (hfail att)
    rw [submitLoop_reqErr_step base r env m att n _ hbr]
    cases n with
    | zero =>
      have hcond : ¬((att : Int) < m - 1) := by omega
      simp [hcond, List.replicate]
    | succ k =>
      have hcond : (att : Int) < m - 1 := by omega
      rw [if_pos hcond, ih (att + 1) (by omega) (by omega)]
      simp only [SubmitTrace.mk.injEq]
      refine ⟨by simp [List.replicate_succ], ?_, ?_⟩
      · simp only [Nat.add_sub_cancel]
        exact pow_sleeps_cons att k
      · have he : att + 1 + (k + 1) - 1 = att + (k + 1 + 1) - 1 := by omega
        rw [he]

theorem submitLoop_leadFailures (base : String) (r : WorkloadRequest)
    (env : Nat → AttemptOutcome) (m : Int) :
    ∀ k rem att, att + rem = m.toNat → k < rem →
    (∀ i, i < k → isRetriedFailure (env (att + i)) = true) →
    ∀ s body, env (att + k) = AttemptOutcome.response s (some body) →
    raisesForStatus s = false →
    submitLoop base r env m att rem =
      { calls := List.replicate (k + 1) (mkSubmitCall base r)
        sleeps := (List.range k).map (fun j => 2 ^ (att + j))
        outcome := match consumeResult body with
                   | Except.ok _ => SubmitOutcome.success body
                   | Except.error e => SubmitOutcome.raisedPyError e } := by
  intro k
  induction k with
  | zero =>
    intro rem att hsum hlt hfail s body henv hs
    obtain ⟨n, rfl⟩ : ∃ n, rem = n + 1 := ⟨rem - 1, by omega⟩
    have henv0 : env att = AttemptOutcome.response s (some body) := by
      simpa using henv
    have hhr : handleResponse (env att) =
        (match consumeResult body with
         | Except.ok _ => AttemptResult.ok body
         | Except.error e => AttemptResult.consumeErr e) := by
      rw [henv0]
      simp [handleResponse, hs]
    cases hc : consumeResult body with
    | ok u =>
      simp only [hc] at hhr
      rw [submitLoop_ok_step base r env m att n body hhr]
      simp [List.replicate, hc]
    | error e =>
      simp only [hc] at hhr
      rw [submitLoop_consumeErr_step base r env m att n e hhr]
      simp [List.replicate, hc]
  | succ k ih =>
    intro rem att hsum hlt hfail s body henv hs
    obtain ⟨n, rfl⟩ : ∃ n, rem = n + 1 := ⟨rem - 1, by omega⟩
    have h0 : isRetriedFailure (env att) = true := by
      have h00 := hfail 0 (by omega)
      simpa using h00
    have hbr := handleResponse_retried (env att) h0
    have hcond : (att : Int) < m - 1 := by omega
    rw [submitLoop_reqErr_step base r env m att n _ hbr, if_pos hcond]
    have hfail2 : ∀ i, i < k → isRetriedFailure (env (att + 1 + i)) = true := by
      intro i hi
      have h2 := hfail (i + 1) (by omega)
      have harr : att + (i + 1) = att + 1 + i := by omega
      rwa [harr] at h2
    have henv2 : env (att + 1 + k) = AttemptOutcome.response s (some body) := by
      have harr : att + (k + 1) = att + 1 + k := by omega
      rwa [harr] at henv
    rw [ih n (att + 1) (by omega) (by omega) hfail2 s body henv2 hs]
    simp only [SubmitTrace.mk.injEq]
    exact ⟨by simp [List.replicate_succ], pow_sleeps_cons att k, trivial⟩

theorem submitLoop_shape (base : String) (r : WorkloadRequest)
    (env : Nat → AttemptOutcome) (m : Int) :
    ∀ rem att, att + rem = m.toNat → 1 ≤ rem →
    (∃ body, (submitLoop base r env m att rem).outcome = SubmitOutcome.success body ∧
        consumeResult body = Except.ok ()) ∨
    (∃ e, (submitLoop base r env m att rem).outcome = SubmitOutcome.raisedRequestError e) ∨
    (∃ e, (submitLoop base r env m att rem).outcome = SubmitOutcome.raisedPyError e) := by
  intro rem
  induction rem with
  | zero => intro att h1 h2; omega
  | succ n ih =>
    intro att hsum _
    cases hR : handleResponse (env att) with
    | ok body =>
      left
      refine ⟨body, ?_, consume_ok_of_handleResponse (env att) body hR⟩
      rw [submitLoop_ok_step base r env m att n body hR]
    | consumeErr e =>
      right; right
      exact ⟨e, by rw [submitLoop_consumeErr_step base r env m att n e hR]⟩
    | reqErr e =>
      rw [submitLoop_reqErr_step base r env m att n e hR]
      by_cases hcond : (att : Int) < m - 1
      · rw [if_pos hcond]
        have hn : 1 ≤ n := by omega
        have h2 := ih (att + 1) (by omega) hn
        simpa using h2
      · rw [if_neg hcond]
        right; left
        exact ⟨e, rfl⟩

/-- Claim C1, amended.  For maxRetries >= 1, when every attempt fails with
a failure of the retried request-exception class (a transport error, an
HTTP status in 400..599, or an unparsable response body), the client makes
exactly maxRetries HTTP calls and then raises the failure of the last
attempt.  (As stated the claim is false on two counts, see the
counterexample: a non-2xx status outside 400..599 with a parsable body is
treated as success by `raise_for_status`, and maxRetries <= 0 yields zero
calls and a returned empty dict instead of a propagated failure.) -/
theorem claim_C1 (base : String) (r : WorkloadRequest) (m : Int)
    (env : Nat → AttemptOutcome) (hm : 1 ≤ m)
    (hfail : ∀ i, isRetriedFailure (env i) = true) :
    (submit_workload base r m env).calls.length = m.toNat ∧
    (submit_workload base r m env).outcome =
      SubmitOutcome.raisedRequestError (errOf (env (m.toNat - 1))) := by
  have h := submitLoop_allFail base r env m hfail m.toNat 0 (by omega) (by omega)
  unfold submit_workload
  rw [h]
  simp

/-- Claim C1 as stated is false on the code: (a) an endpoint that always
answers status 300 (non-2xx) with a well-formed JSON body makes the client
succeed on the first of 3 allowed attempts — `raise_for_status` only
raises for 4xx/5xx — instead of making 3 calls and propagating a failure;
(b) with maxRetries = 0 and an always-failing endpoint, no failure is
propagated: the client returns the empty dict. -/
theorem claim_C1_cex :
    ((submit_workload "https://aluminatiai.com" specExampleRequest 3
        (fun _ => AttemptOutcome.response 300 (some specStubBody))).outcome =
      SubmitOutcome.success specStubBody ∧
     (submit_workload "https://aluminatiai.com" specExampleRequest 3
        (fun _ => AttemptOutcome.response 300 (some specStubBody))).calls.length = 1) ∧
    (submit_workload "https://aluminatiai.com" specExampleRequest 0
        (fun _ => AttemptOutcome.transportError)).outcome = SubmitOutcome.emptyDict :=
  ⟨⟨rfl, rfl⟩, rfl⟩

/-- Witness for C1: an always transport-failing endpoint with
maxRetries = 3 yields exactly 3 calls and the propagated transport
error. -/
theorem claim_C1_witness :
    (submit_workload "https://aluminatiai.com" specExampleRequest 3
       (fun _ => AttemptOutcome.transportError)).calls.length = 3 ∧
    (submit_workload "https://aluminatiai.com" specExampleRequest 3
       (fun _ => AttemptOutcome.transportError)).outcome =
      SubmitOutcome.raisedRequestError ReqErr.transport := by
  have h := claim_C1 "https://aluminatiai.com" specExampleRequest 3
      (fun _ => AttemptOutcome.transportError) (by decide) (fun i => rfl)
  exact ⟨h.1, h.2⟩

/-- Claim C2.  With failures of the retried class: when all maxRetries
attempts fail, the sleep sequence is exactly 2^0, 2^1, ..,
2^(maxRetries-2) (none after the final failed attempt) and the total
sleep time is sum(2^i for i in 0..maxRetries-2) = 2^(maxRetries-1) - 1;
and when the first k attempts fail and attempt k gets a non-error
response, the sleep sequence is exactly 2^0, .., 2^(k-1). -/
theorem claim_C2 (base : String) (r : WorkloadRequest) (m : Int)
    (env : Nat → AttemptOutcome) (hm : 1 ≤ m) :
    ((∀ i, isRetriedFailure (env i) = true) →
      (submit_workload base r m env).sleeps =
        (List.range (m.toNat - 1)).map (fun j => 2 ^ j) ∧
      (submit_workload base r m env).sleeps.sum = 2 ^ (m.toNat - 1) - 1) ∧
    (∀ k s body, k < m.toNat →
      (∀ i, i < k → isRetriedFailure (env i) = true) →
      env k = AttemptOutcome.response s (some body) →
      raisesForStatus s = false →
      (submit_workload base r m env).sleeps =
        (List.range k).map (fun j => 2 ^ j)) := by
  constructor
  · intro hfail
    have h := submitLoop_allFail base r env m hfail m.toNat 0 (by omega) (by omega)
    unfold submit_workload
    rw [h]
    constructor
    · simp
    · simp [sum_pow_range]
  · intro k s body hk hfail henv hs
    have hfail0 : ∀ i, i < k → isRetriedFailure (env (0 + i)) = true := by
      intro i hi
      simpa using hfail i hi
    have henv0 : env (0 + k) = AttemptOutcome.response s (some body) := by
      simpa using henv
    have h := submitLoop_leadFailures base r env m k m.toNat 0 (by omega) hk
        hfail0 s body henv0 hs
    unfold submit_workload
    rw [h]
    simp

/-- Witness for C2: three attempts all failing in transport sleep 1s then
2s, 3s in total; and failing twice before a 200 success sleeps 1s then
2s. -/
theorem claim_C2_witness :
    ((submit_workload "https://aluminatiai.com" specExampleRequest 3
        (fun _ => AttemptOutcome.transportError)).sleeps = [1, 2] ∧
     (submit_workload "https://aluminatiai.com" specExampleRequest 3
        (fun _ => AttemptOutcome.transportError)).sleeps.sum = 3) ∧
    (submit_workload "https://aluminatiai.com" specExampleRequest 3
        (fun i => if i < 2 then AttemptOutcome.transportError
                  else AttemptOutcome.response 200 (some specStubBody))).sleeps
      = [1, 2] := by
  have h1 := (claim_C2 "https://aluminatiai.com" specExampleRequest 3
      (fun _ => AttemptOutcome.transportError) (by decide)).1 (fun i => rfl)
  have h2 := (claim_C2 "https://aluminatiai.com" specExampleRequest 3
      (fun i => if i < 2 then AttemptOutcome.transportError
                else AttemptOutcome.response 200 (some specStubBody))
      (by decide)).2 2 200 specStubBody (by decide)
      (fun i hi => by interval_cases i <;> rfl) rfl rfl
  refine ⟨⟨?_, ?_⟩, ?_⟩
  · rw [h1.1]; decide
  · rw [h1.2]; decide
  · rw [h2]; decide

/-- Claim C9.  When max_retries <= 0 the loop `for attempt in
range(max_retries)` runs zero iterations: no HTTP call is made, nothing is
raised, and the `return {}` at line 111 hands the caller an empty dict. -/
theorem claim_C9 (base : String) (r : WorkloadRequest) (m : Int)
    (env : Nat → AttemptOutcome) (hm : m ≤ 0) :
    submit_workload base r m env =
      { calls := [], sleeps := [], outcome := SubmitOutcome.emptyDict } := by
  unfold submit_workload
  rw [Int.toNat_of_nonpos hm]
  rfl

/-- Witness for C9: max_retries = -2 against an always-succeeding endpoint
still makes zero calls and returns the empty dict. -/
theorem claim_C9_witness :
    submit_workload "https://aluminatiai.com" specExampleRequest (-2)
      (fun _ => AttemptOutcome.response 200 (some specStubBody)) =
    { calls := [], sleeps := [], outcome := SubmitOutcome.emptyDict } :=
  claim_C9 "https://aluminatiai.com" specExampleRequest (-2)
    (fun _ => AttemptOutcome.response 200 (some specStubBody)) (by decide)

/-- Claim C3, amended.  An attempt that yields a 2xx response with a
parsable JSON body on which the success-path accesses all succeed
(`consumeResult` returns ok: `id` present, `estimates` with numeric
`kwh`/`carbon_kg`/`cost_usd`, and a sliceable `optimizations` under a
truthy `agent_insights`) makes the client return that parsed body
unmodified, immediately, with no further attempts.  (As stated the claim
is false: a 2xx response whose parsable body lacks the accessed keys is
not returned — the print statements raise first; see the
counterexample.) -/
theorem claim_C3 (base : String) (r : WorkloadRequest) (m : Int)
    (env : Nat → AttemptOutcome) (k s : Nat) (body : Json)
    (hk : k < m.toNat)
    (hfail : ∀ i, i < k → isRetriedFailure (env i) = true)
    (henv : env k = AttemptOutcome.response s (some body))
    (h2a : 200 ≤ s) (h2b : s < 300)
    (hconsume : consumeResult body = Except.ok ()) :
    (submit_workload base r m env).calls.length = k + 1 ∧
    (submit_workload base r m env).outcome = SubmitOutcome.success body := by
  have hs : raisesForStatus s = false := by
    simp only [raisesForStatus, Bool.and_eq_false_imp, decide_eq_true_eq,
      decide_eq_false_iff_not]
    omega
  have hfail0 : ∀ i, i < k → isRetriedFailure (env (0 + i)) = true := by
    intro i hi
    simpa using hfail i hi
  have henv0 : env (0 + k) = AttemptOutcome.response s (some body) := by
    simpa using henv
  have h := submitLoop_leadFailures base r env m k m.toNat 0 (by omega) hk
      hfail0 s body henv0 hs
  unfold submit_workload
  rw [h, hconsume]
  simp

/-- Claim C3 as stated is false on the code: a 2xx response with the
parsable JSON body `{}` is not returned to the caller — the client raises
`KeyError("id")` from the success-path print, after a single call. -/
theorem claim_C3_cex :
    (submit_workload "https://aluminatiai.com" specExampleRequest 3
       (fun _ => AttemptOutcome.response 200 (some emptyObjBody))).outcome =
      SubmitOutcome.raisedPyError (PyErr.keyError "id") ∧
    (submit_workload "https://aluminatiai.com" specExampleRequest 3
       (fun _ => AttemptOutcome.response 200 (some emptyObjBody))).calls.length = 1 :=
  ⟨rfl, rfl⟩

/-- Witness for C3: the spec's example scenario — the example request
against a stub always answering 200 with
`{id:"abc123", status:"submitted",
estimates:{kwh:1200.5, carbon_kg:600.2, cost_usd:150.0}}` yields exactly
one outbound call and returns that exact structure unmodified. -/
theorem claim_C3_witness :
    (submit_workload "https://aluminatiai.com" specExampleRequest 3
       (fun _ => AttemptOutcome.response 200 (some specStubBody))).calls.length = 1 ∧
    (submit_workload "https://aluminatiai.com" specExampleRequest 3
       (fun _ => AttemptOutcome.response 200 (some specStubBody))).outcome =
      SubmitOutcome.success specStubBody :=
  claim_C3 "https://aluminatiai.com" specExampleRequest 3
    (fun _ => AttemptOutcome.response 200 (some specStubBody)) 0 200 specStubBody
    (by decide) (fun i hi => absurd hi (Nat.not_lt_zero i)) rfl
    (by decide) (by decide) rfl

/-- Claim C4, amended.  For maxRetries >= 1 the contract holds: the call
either returns a body that passed the success-path accesses, or raises (a
request error or a Python error); the `return {}` fallthrough is
unreachable.  (As stated — for every value of maxRetries — the claim is
false: maxRetries = 0 returns the default empty dict with no failure; see
the counterexample.) -/
theorem claim_C4 (base : String) (r : WorkloadRequest) (m : Int)
    (env : Nat → AttemptOutcome) (hm : 1 ≤ m) :
    ((∃ body, (submit_workload base r m env).outcome = SubmitOutcome.success body ∧
        consumeResult body = Except.ok ()) ∨
     (∃ e, (submit_workload base r m env).outcome = SubmitOutcome.raisedRequestError e) ∨
     (∃ e, (submit_workload base r m env).outcome = SubmitOutcome.raisedPyError e)) ∧
    (submit_workload base r m env).outcome ≠ SubmitOutcome.emptyDict := by
  have h := submitLoop_shape base r env m m.toNat 0 (by omega) (by omega)
  unfold submit_workload
  refine ⟨h, ?_⟩
  rcases h with ⟨body, hb, _⟩ | ⟨e, he⟩ | ⟨e, he⟩
  · rw [hb]
    simp
  · rw [he]
    simp
  · rw [he]
    simp

/-- Claim C4 as stated is false on the code: with maxRetries = 0 the
client makes no call, raises nothing, and hands the caller the default
empty dict — neither a valid WorkloadResult nor a propagated failure. -/
theorem claim_C4_cex :
    submit_workload "https://aluminatiai.com" specExampleRequest 0
      (fun _ => AttemptOutcome.response 500 none) =
    { calls := [], sleeps := [], outcome := SubmitOutcome.emptyDict } := rfl

/-- Witness for C4: one attempt answered 404 ends in a propagated failure,
never the empty-dict fallthrough. -/
theorem claim_C4_witness :
    (submit_workload "https://aluminatiai.com" specExampleRequest 1
       (fun _ => AttemptOutcome.response 404 (some emptyObjBody))).outcome ≠
      SubmitOutcome.emptyDict :=
  (claim_C4 "https://aluminatiai.com" specExampleRequest 1
     (fun _ => AttemptOutcome.response 404 (some emptyObjBody)) (by decide)).2

theorem lookup_notes_none (r : WorkloadRequest) (hn : r.notes = none) :
    (buildPayload r).lookup "notes" = none := by
  simp only [buildPayload, hn]
  rfl

theorem lookup_notes_empty (r : WorkloadRequest) (hn : r.notes = some "") :
    (buildPayload r).lookup "notes" = none := by
  simp only [buildPayload, hn, if_pos rfl]
  rfl

theorem lookup_notes_some (r : WorkloadRequest) (s : String)
    (hn : r.notes = some s) (hs : s ≠ "") :
    (buildPayload r).lookup "notes" = some (Json.str s) := by
  simp only [buildPayload, hn, if_neg hs]
  rfl

/-- Claim C5.  The outbound body has a "notes" key iff `notes` is present
and non-empty (Python truthiness of `if notes:`), and then it maps "notes"
to that string. -/
theorem claim_C5 (r : WorkloadRequest) :
    ((buildPayload r).lookup "notes" = none ↔
      (r.notes = none ∨ r.notes = some "")) ∧
    (∀ s, r.notes = some s → s ≠ "" →
      (buildPayload r).lookup "notes" = some (Json.str s)) := by
  constructor
  · constructor
    · intro hnone
      cases hn : r.notes with
      | none => exact Or.inl rfl
      | some s =>
        by_cases hs : s = ""
        · subst hs
          exact Or.inr rfl
        · rw [lookup_notes_some r s hn hs] at hnone
          cases hnone
    · rintro (hn | hn)
      · exact lookup_notes_none r hn
      · exact lookup_notes_empty r hn
  · intro s hn hs
    exact lookup_notes_some r s hn hs

/-- Witness for C5: a non-empty note lands in the body under "notes"; the
example request without notes has no "notes" key. -/
theorem claim_C5_witness :
    (buildPayload { specExampleRequest with notes := some "hello" }).lookup
      "notes" = some (Json.str "hello") ∧
    (buildPayload specExampleRequest).lookup "notes" = none :=
  ⟨(claim_C5 { specExampleRequest with notes := some "hello" }).2 "hello" rfl
     (by decide),
   (claim_C5 specExampleRequest).1.mpr (Or.inl rfl)⟩

/-- Claim C6, amended.  `get_workload` and `update_status` each make
exactly one outbound call (GET / PATCH with the documented URL and body)
with no retry regardless of outcome; a transport failure or any 4xx/5xx
response makes the operation fail immediately with that error propagated
unretried; a non-error status with a parsable body returns the body.  (As
stated — "any non-2xx response fails" — the claim is false:
`raise_for_status` accepts 3xx; see the counterexample.) -/
theorem claim_C6 (base workload_id status : String) (env : AttemptOutcome) :
    (get_workload base workload_id env).1 =
      { method := "GET", url := base ++ "/api/workloads/" ++ workload_id
        timeout := none, body := none } ∧
    (update_status base workload_id status env).1 =
      { method := "PATCH", url := base ++ "/api/workloads/" ++ workload_id
        timeout := none
        body := some (Json.obj [("status", Json.str status)]) } ∧
    (env = AttemptOutcome.transportError →
      (get_workload base workload_id env).2 = FetchOutcome.raised ReqErr.transport ∧
      (update_status base workload_id status env).2 =
        FetchOutcome.raised ReqErr.transport) ∧
    (∀ s b, env = AttemptOutcome.response s b → raisesForStatus s = true →
      (get_workload base workload_id env).2 =
        FetchOutcome.raised (ReqErr.httpStatus s) ∧
      (update_status base workload_id status env).2 =
        FetchOutcome.raised (ReqErr.httpStatus s)) ∧
    (∀ s body, env = AttemptOutcome.response s (some body) →
      raisesForStatus s = false →
      (get_workload base workload_id env).2 = FetchOutcome.success body ∧
      (update_status base workload_id status env).2 =
        FetchOutcome.success body) := by
  refine ⟨rfl, rfl, ?_, ?_, ?_⟩
  · rintro rfl
    exact ⟨rfl, rfl⟩
  · rintro s b rfl hs
    cases b <;> constructor <;> simp [get_workload, update_status, httpFetch, hs]
  · rintro s body rfl hs
    constructor <;> simp [get_workload, update_status, httpFetch, hs]

/-- Claim C6 as stated is false on the code: a 300 (non-2xx) response with
a parsable body does not make `get_workload` fail — `raise_for_status`
only raises for 4xx/5xx, so the body is returned. -/
theorem claim_C6_cex :
    (get_workload "https://aluminatiai.com" "w1"
       (AttemptOutcome.response 300 (some specStubBody))).2 =
      FetchOutcome.success specStubBody := rfl

/-- Witness for C6: a 503 response makes both accessors fail immediately
with that HTTP error. -/
theorem claim_C6_witness :
    (get_workload "https://aluminatiai.com" "w1"
       (AttemptOutcome.response 503 (some specStubBody))).2 =
      FetchOutcome.raised (ReqErr.httpStatus 503) ∧
    (update_status "https://aluminatiai.com" "w1" "running"
       (AttemptOutcome.response 503 (some specStubBody))).2 =
      FetchOutcome.raised (ReqErr.httpStatus 503) :=
  (claim_C6 "https://aluminatiai.com" "w1" "running"
     (AttemptOutcome.response 503 (some specStubBody))).2.2.2.1 503
    (some specStubBody) rfl (by decide)

theorem submitLoop_calls_all (base : String) (r : WorkloadRequest)
    (env : Nat → AttemptOutcome) (m : Int) :
    ∀ rem att c, c ∈ (submitLoop base r env m att rem).calls →
      c = mkSubmitCall base r := by
  intro rem
  induction rem with
  | zero =>
    intro att c hc
    simp [submitLoop] at hc
  | succ n ih =>
    intro att c hc
    cases hR : handleResponse (env att) with
    | ok body =>
      rw [submitLoop_ok_step base r env m att n body hR] at hc
      simpa using hc
    | consumeErr e =>
      rw [submitLoop_consumeErr_step base r env m att n e hR] at hc
      simpa using hc
    | reqErr e =>
      rw [submitLoop_reqErr_step base r env m att n e hR] at hc
      by_cases hcond : (att : Int) < m - 1
      · rw [if_pos hcond] at hc
        simp only [List.mem_cons] at hc
        rcases hc with rfl | hc
        · rfl
        · exact ih (att + 1) c hc
      · rw [if_neg hcond] at hc
        simpa using hc

/-- Claim C7.  Every call issued by `submit_workload` is a POST to
`{base}/api/workloads` with `timeout=30` and the built payload as body;
the payload keys are exactly model_size_gb, num_gpus, gpu_type,
duration_hours, utilization_pct, use_smart_agent, plus "notes" only when
present and non-empty. -/
theorem claim_C7 (base : String) (r : WorkloadRequest) (m : Int)
    (env : Nat → AttemptOutcome) (c : HttpCall)
    (hc : c ∈ (submit_workload base r m env).calls) :
    c.method = "POST" ∧ c.url = base ++ "/api/workloads" ∧
    c.timeout = some 30 ∧ c.body = some (Json.obj (buildPayload r)) ∧
    (buildPayload r).map Prod.fst =
      ["model_size_gb", "num_gpus", "gpu_type", "duration_hours",
       "utilization_pct", "use_smart_agent"] ++
      (match r.notes with
       | some s => if s = "" then [] else ["notes"]
       | none => []) := by
  unfold submit_workload at hc
  have hceq : c = mkSubmitCall base r :=
    submitLoop_calls_all base r env m m.toNat 0 c hc
  subst hceq
  refine ⟨rfl, rfl, rfl, rfl, ?_⟩
  cases hn : r.notes with
  | none => simp [buildPayload, hn]
  | some s =>
    by_cases hs : s = ""
    · subst hs
      simp [buildPayload, hn]
    · simp [buildPayload, hn, hs]

/-- Witness for C7: the one call of a single-attempt submission of the
example request carries the documented method, URL, timeout and body. -/
theorem claim_C7_witness :
    (mkSubmitCall "https://aluminatiai.com" specExampleRequest).method = "POST" ∧
    (mkSubmitCall "https://aluminatiai.com" specExampleRequest).url =
      "https://aluminatiai.com" ++ "/api/workloads" ∧
    (mkSubmitCall "https://aluminatiai.com" specExampleRequest).timeout =
      some 30 ∧
    (mkSubmitCall "https://aluminatiai.com" specExampleRequest).body =
      some (Json.obj (buildPayload specExampleRequest)) ∧
    (buildPayload specExampleRequest).map Prod.fst =
      ["model_size_gb", "num_gpus", "gpu_type", "duration_hours",
       "utilization_pct", "use_smart_agent"] ++
      (match specExampleRequest.notes with
       | some s => if s = "" then [] else ["notes"]
       | none => []) := by
  have hmem : mkSubmitCall "https://aluminatiai.com" specExampleRequest ∈
      (submit_workload "https://aluminatiai.com" specExampleRequest 1
        (fun _ => AttemptOutcome.transportError)).calls := by
    show mkSubmitCall "https://aluminatiai.com" specExampleRequest ∈
      [mkSubmitCall "https://aluminatiai.com" specExampleRequest]
    exact List.mem_singleton.mpr rfl
  exact claim_C7 "https://aluminatiai.com" specExampleRequest 1
    (fun _ => AttemptOutcome.transportError)
    (mkSubmitCall "https://aluminatiai.com" specExampleRequest) hmem

theorem dropWhile_self_idem (p : Char → Bool) (l : List Char) :
    (l.dropWhile p).dropWhile p = l.dropWhile p := by
  induction l with
  | nil => rfl
  | cons a l ih =>
    by_cases h : p a
    · simp [List.dropWhile_cons, h, ih]
    · simp [List.dropWhile_cons, h]

/-- Claim C8.  Construction strips trailing slashes idempotently, so a
client built from `u ++ "/"` equals (hence issues the same request URLs
as) one built from `u`, and the default base URL is
`https://aluminatiai.com`. -/
theorem claim_C8 :
    (∀ u, mkTracker (u ++ "/") = mkTracker u) ∧
    (∀ u, rstripSlash (rstripSlash u) = rstripSlash u) ∧
    mkTracker defaultApiBaseUrl = { api_base_url := "https://aluminatiai.com" } ∧
    (∀ u workload_id env,
      (get_workload (mkTracker (u ++ "/")).api_base_url workload_id env).1.url =
      (get_workload (mkTracker u).api_base_url workload_id env).1.url) := by
  have hstrip : ∀ u, rstripSlash (u ++ "/") = rstripSlash u := by
    intro u
    unfold rstripSlash
    have hdata : (u ++ "/").data = u.data ++ ['/'] := rfl
    rw [hdata, List.reverse_append]
    simp [List.dropWhile]
  have htrk : ∀ u, mkTracker (u ++ "/") = mkTracker u := by
    intro u
    unfold mkTracker
    rw [hstrip u]
  refine ⟨htrk, ?_, rfl, ?_⟩
  · intro u
    unfold rstripSlash
    simp only [List.reverse_reverse]
    rw [dropWhile_self_idem]
  · intro u workload_id env
    rw [htrk u]

theorem lookup_error_of_hasKey_false (j : Json) (k : String)
    (h : j.hasKey k = false) : ∃ e, j.lookupKey k = Except.error e := by
  unfold Json.hasKey at h
  cases hq : j.lookupKey k with
  | ok v =>
    rw [hq] at h
    simp at h
  | error e => exact ⟨e, rfl⟩

theorem consume_error_of_missing (body : Json)
    (H : body.hasKey "id" = false ∨ body.hasKey "estimates" = false ∨
      (∃ est, body.lookupKey "estimates" = Except.ok est ∧
        (est.hasKey "kwh" = false ∨ est.hasKey "carbon_kg" = false ∨
         est.hasKey "cost_usd" = false))) :
    ∃ e, consumeResult body = Except.error e := by
  rcases H with h | h | ⟨est0, hest0, h⟩
  · obtain ⟨e0, he0⟩ := lookup_error_of_hasKey_false body "id" h
    exact ⟨e0, by simp only [consumeResult, he0]⟩
  · cases hid : body.lookupKey "id" with
    | error e => exact ⟨e, by simp only [consumeResult, hid]⟩
    | ok v =>
      obtain ⟨e0, he0⟩ := lookup_error_of_hasKey_false body "estimates" h
      exact ⟨e0, by simp only [consumeResult, hid, he0]⟩
  · cases hid : body.lookupKey "id" with
    | error e => exact ⟨e, by simp only [consumeResult, hid]⟩
    | ok v =>
      rcases h with hk | hk | hk
      · obtain ⟨e1, he1⟩ := lookup_error_of_hasKey_false est0 "kwh" hk
        exact ⟨e1, by simp only [consumeResult, hid, hest0, he1]⟩
      · cases hkwh : est0.lookupKey "kwh" with
        | error e => exact ⟨e, by simp only [consumeResult, hid, hest0, hkwh]⟩
        | ok kwh =>
          cases hfmt : fmtFixed2 kwh with
          | error e =>
            exact ⟨e, by simp only [consumeResult, hid, hest0, hkwh, hfmt]⟩
          | ok u =>
            obtain ⟨e2, he2⟩ := lookup_error_of_hasKey_false est0 "carbon_kg" hk
            exact ⟨e2, by simp only [consumeResult, hid, hest0, hkwh, hfmt, he2]⟩
      · cases hkwh : est0.lookupKey "kwh" with
        | error e => exact ⟨e, by simp only [consumeResult, hid, hest0, hkwh]⟩
        | ok kwh =>
          cases hfmt : fmtFixed2 kwh with
          | error e =>
            exact ⟨e, by simp only [consumeResult, hid, hest0, hkwh, hfmt]⟩
          | ok u =>
            cases hcar : est0.lookupKey "carbon_kg" with
            | error e =>
              exact ⟨e, by simp only [consumeResult, hid, hest0, hkwh, hfmt, hcar]⟩
            | ok car =>
              cases hfmt2 : fmtFixed2 car with
              | error e =>
                exact ⟨e, by
                  simp only [consumeResult, hid, hest0, hkwh, hfmt, hcar, hfmt2]⟩
              | ok u2 =>
                obtain ⟨e3, he3⟩ :=
                  lookup_error_of_hasKey_false est0 "cost_usd" hk
                exact ⟨e3, by
                  simp only [consumeResult, hid, hest0, hkwh, hfmt, hcar, hfmt2,
                    he3]⟩

/-- Claim C10, amended.  When an attempt of submit_workload gets a 2xx
response whose parsed body lacks `id`, lacks `estimates`, or whose
`estimates` object lacks one of `kwh`/`carbon_kg`/`cost_usd`, the client
raises a Python error (KeyError, TypeError or ValueError — not of the
retried request-exception class) before returning: no further attempts and
no result.  (As stated — "raises a lookup error" — the claim is false:
when a value reached before the first missing key fails to format, the
error raised is a ValueError, not a lookup error; see the
counterexample.) -/
theorem claim_C10 (base : String) (r : WorkloadRequest) (m : Int)
    (env : Nat → AttemptOutcome) (k s : Nat) (body : Json)
    (hk : k < m.toNat)
    (hfail : ∀ i, i < k → isRetriedFailure (env i) = true)
    (henv : env k = AttemptOutcome.response s (some body))
    (h2a : 200 ≤ s) (h2b : s < 300)
    (H : body.hasKey "id" = false ∨ body.hasKey "estimates" = false ∨
      (∃ est, body.lookupKey "estimates" = Except.ok est ∧
        (est.hasKey "kwh" = false ∨ est.hasKey "carbon_kg" = false ∨
         est.hasKey "cost_usd" = false))) :
    (∃ e, (submit_workload base r m env).outcome =
      SubmitOutcome.raisedPyError e) ∧
    (submit_workload base r m env).calls.length = k + 1 := by
  obtain ⟨e, he⟩ := consume_error_of_missing body H
  have hs : raisesForStatus s = false := by
    simp only [raisesForStatus, Bool.and_eq_false_imp, decide_eq_true_eq,
      decide_eq_false_iff_not]
    omega
  have hfail0 : ∀ i, i < k → isRetriedFailure (env (0 + i)) = true := by
    intro i hi
    simpa using hfail i hi
  have henv0 : env (0 + k) = AttemptOutcome.response s (some body) := by
    simpa using henv
  have h := submitLoop_leadFailures base r env m k m.toNat 0 (by omega) hk
      hfail0 s body henv0 hs
  unfold submit_workload
  rw [h]
  constructor
  · exact ⟨e, by simp only [he]⟩
  · simp

/-- Claim C10 as stated is false on the code: a 200 response with body
`{id:"w1", estimates:{kwh:"oops"}}` lacks `carbon_kg` (and `cost_usd`),
yet the error raised is ValueError — from formatting the string under
`kwh` with `:.2f` — not a lookup error. -/
theorem claim_C10_cex :
    (submit_workload "https://aluminatiai.com" specExampleRequest 3
       (fun _ => AttemptOutcome.response 200 (some badKwhBody))).outcome =
      SubmitOutcome.raisedPyError PyErr.valueError ∧
    (submit_workload "https://aluminatiai.com" specExampleRequest 3
       (fun _ => AttemptOutcome.response 200 (some badKwhBody))).calls.length
      = 1 :=
  ⟨rfl, rfl⟩

/-- Witness for C10: a 200 response whose `estimates` lacks `cost_usd`
ends, after a single call, in a raised Python error. -/
theorem claim_C10_witness :
    (∃ e, (submit_workload "https://aluminatiai.com" specExampleRequest 3
        (fun _ => AttemptOutcome.response 200 (some missingCostBody))).outcome =
      SubmitOutcome.raisedPyError e) ∧
    (submit_workload "https://aluminatiai.com" specExampleRequest 3
        (fun _ => AttemptOutcome.response 200 (some missingCostBody))).calls.length
      = 1 :=
  claim_C10 "https://aluminatiai.com" specExampleRequest 3
    (fun _ => AttemptOutcome.response 200 (some missingCostBody)) 0 200
    missingCostBody (by decide) (fun i hi => absurd hi (Nat.not_lt_zero i)) rfl
    (by decide) (by decide)
    (Or.inr (Or.inr ⟨Json.obj [("kwh", Json.num 10), ("carbon_kg", Json.num 5)],
      rfl, Or.inr (Or.inr rfl)⟩))
